import Mathlib

/-!
A verification development for the tgres/timeriver ingestion pipeline
(`transceiver.go` and `receiver/worker.go`).  Pure fragments of the Go
source are embedded as executable Lean definitions: float64 values are
modelled as rationals, durations as nanosecond counts (`Nat`), channels
as occupancy counters with an explicit capacity, and each worker loop
branch as a function on explicit state.  Theorems then settle the
specified properties against these embeddings.
-/

/- ------------------------------------------------------------------ -/
/-  Data model                                                         -/
/- ------------------------------------------------------------------ -/

/-- A data point as produced by the stats aggregator: a name and a
float64 value (modelled as a rational). -/
structure trDataPoint where
  Name : String
  Value : ℚ
deriving DecidableEq

/-- The fields of a `trDataSource` that the embedded operations touch:
the stable id, the name, the last-flush instant (`LastFlushRT`,
modelled as a rational timestamp) and the rotated round-robin-archive
buffers (modelled as an abstract list of slot values). -/
structure trDataSource where
  Id : Int
  Name : String
  LastFlushRT : ℚ
  rras : List ℚ
deriving DecidableEq

/-- `ds.mostlyCopy()`: a structural copy of the data source, safe to
read outside the owning shard.  With value semantics the copy is the
current value of the record. -/
def mostlyCopy (ds : trDataSource) : trDataSource := ds

/-- `ds.clearRRAs()`: clears the rotated archive buffers. -/
def clearRRAs (ds : trDataSource) : trDataSource := { ds with rras := [] }

/-- `t.dss.getById(id)`: registry lookup by id. The registry is
modelled as the list of live data sources. -/
def getById (dss : List trDataSource) (id : Int) : Option trDataSource :=
  dss.find? (fun ds => ds.Id == id)

/-- A sample data source used to instantiate theorems at concrete
inputs. -/
def dsA : trDataSource := ⟨7, "a.b", 0, [1, 2]⟩

/- ------------------------------------------------------------------ -/
/-  Periodic flush timers (transceiver.go:212-220, receiver/worker.go:24-32) -/
/- ------------------------------------------------------------------ -/

/-- transceiver.go:216 — `int(config.MaxCache.Duration.Nanoseconds() -
config.MinCache.Duration.Nanoseconds()) / 1000`, the argument later
passed to `rand.Intn`.  Durations are nanosecond counts; with
`MinCache ≤ MaxCache` the delta is non-negative. -/
def transceiverRandArg (minNs maxNs : Nat) : Nat := (maxNs - minNs) / 1000

/-- transceiver.go:217 — `time.Duration(rand.Intn(i))*time.Millisecond +
config.MinCache.Duration` with draw `k < transceiverRandArg`: the slept
duration in nanoseconds. -/
def transceiverSleepNs (minNs k : Nat) : Nat := k * 1000000 + minNs

/-- receiver/worker.go:27 — `int(maxCacheDur.Nanoseconds() -
minCacheDur.Nanoseconds()) / 1000000`, to which the source adds 1
before calling `rand.Intn`; this is the bound of the draw, i.e.
`rand.Intn(i+1)` takes this value plus one. -/
def receiverRandDelta (minNs maxNs : Nat) : Nat := (maxNs - minNs) / 1000000

/-- receiver/worker.go:28 — the argument of `rand.Intn`, namely
`i + 1`. -/
def receiverRandArg (minNs maxNs : Nat) : Nat := receiverRandDelta minNs maxNs + 1

/-- receiver/worker.go:28 — `time.Duration(rand.Intn(i+1))*time.Millisecond
+ minCacheDur` with draw `k < receiverRandArg`: the slept duration in
nanoseconds. -/
def receiverSleepNs (minNs k : Nat) : Nat := k * 1000000 + minNs

/-- Go's `math/rand.Intn(n)` contract: it panics when `n <= 0`
(modelled from the `math/rand` documentation; the function itself is
an external collaborator). -/
def randIntnPanics (n : Int) : Bool := n ≤ 0

/-- **C8 (counterexample).** The claim that every draw of the
transceiver worker's periodic-flush timer sleeps at most `MaxCache`
fails: with `MinCache = 0`, `MaxCache = 1s` (10⁹ ns), the draw bound is
10⁶, and the draw `k = 999999` sleeps `999999` milliseconds, far above
`MaxCache`. -/
theorem transceiver_sleep_exceeds_max :
    999999 < transceiverRandArg 0 1000000000 ∧
    ¬ transceiverSleepNs 0 999999 ≤ 1000000000 := by decide

/-- **C8 (amended).** In the receiver-package variant
(`workerPeriodicFlushSignal`), for every configuration with
`MinCache ≤ MaxCache` and every draw `k` of `rand.Intn(i+1)`, the slept
duration lies in `[MinCache, MaxCache]`; the transceiver variant
divides the nanosecond delta by 1000 instead of 1000000 and can exceed
`MaxCache`. -/
theorem receiver_sleep_in_range (minNs maxNs k : Nat)
    (h1 : minNs ≤ maxNs) (h2 : k < receiverRandArg minNs maxNs) :
    minNs ≤ receiverSleepNs minNs k ∧ receiverSleepNs minNs k ≤ maxNs := by
  constructor
  · exact Nat.le_add_left _ _
  · have hk : k ≤ (maxNs - minNs) / 1000000 :=
      Nat.lt_succ_iff.mp h2
    have h3 : k * 1000000 ≤ ((maxNs - minNs) / 1000000) * 1000000 :=
      Nat.mul_le_mul_right _ hk
    have h4 : ((maxNs - minNs) / 1000000) * 1000000 ≤ maxNs - minNs :=
      Nat.div_mul_le_self _ _
    have h5 : k * 1000000 + minNs ≤ (maxNs - minNs) + minNs :=
      Nat.add_le_add_right (le_trans h3 h4) _
    simpa [receiverSleepNs, Nat.sub_add_cancel h1] using h5

/-- Witness for `receiver_sleep_in_range` at `MinCache = 1s`,
`MaxCache = 2s`, draw `k = 500`. -/
theorem receiver_sleep_in_range_witness :
    1000000000 ≤ (1000000000 : Nat) ∧ 500 < receiverRandArg 1000000000 2000000000 ∧
    1000000000 ≤ receiverSleepNs 1000000000 500 ∧
    receiverSleepNs 1000000000 500 ≤ 2000000000 :=
  ⟨le_refl _, by decide,
    receiver_sleep_in_range 1000000000 2000000000 500 (by decide) (by decide)⟩

/-- **C10.** With `MinCache = MaxCache` (here both 5s), the transceiver
worker's timer computes `rand.Intn` argument `0`, and `rand.Intn(0)`
panics; the receiver variant adds 1 and stays positive. -/
theorem transceiver_rand_arg_zero :
    transceiverRandArg 5000000000 5000000000 = 0 ∧
    randIntnPanics 0 = true ∧
    0 < receiverRandArg 5000000000 5000000000 := by decide

/- ------------------------------------------------------------------ -/
/-  Stat flush tick (transceiver.go:344-359)                           -/
/- ------------------------------------------------------------------ -/

/-- transceiver.go:344 — `make(chan int, 1)`: the capacity of
`flushCh`. -/
def flushChCapacity : Nat := 1

/-- transceiver.go:353-357 — the timer goroutine's action upon waking,
as a function of the current occupancy of `flushCh`: if
`len(flushCh) == 0` the tick is sent, otherwise it is dropped and
logged.  Returns the new occupancy and whether the tick was dropped. -/
def statTickSignal (occupancy : Nat) : Nat × Bool :=
  if occupancy == 0 then (occupancy + 1, false) else (occupancy, true)

/-- **C9.** When `flushCh` already holds a tick, a new tick is dropped
(occupancy unchanged, drop flag set) rather than queued, and the
occupancy never exceeds the single-slot capacity. -/
theorem stat_tick_drop_on_busy (n : Nat) :
    (1 ≤ n → statTickSignal n = (n, true)) ∧
    (n ≤ flushChCapacity → (statTickSignal n).1 ≤ flushChCapacity) := by
  constructor
  · intro h
    have hn : ¬ n = 0 := Nat.pos_iff_ne_zero.mp h
    simp [statTickSignal, hn]
  · intro hcap
    by_cases h : n = 0
    · simp [statTickSignal, h, flushChCapacity]
    · simp only [statTickSignal, flushChCapacity] at hcap ⊢
      simp [h, hcap]

/-- Witness for `stat_tick_drop_on_busy` at occupancy 1: the tick is
dropped and the slot still holds one tick. -/
theorem stat_tick_drop_on_busy_witness :
    statTickSignal 1 = (1, true) ∧ (statTickSignal 1).1 ≤ flushChCapacity :=
  ⟨(stat_tick_drop_on_busy 1).1 (by decide),
   (stat_tick_drop_on_busy 1).2 (by decide)⟩

/- ------------------------------------------------------------------ -/
/-  Stats aggregator (transceiver.go:339-450)                          -/
/- ------------------------------------------------------------------ -/

/-- transceiver.go:442 — `make([]float64, 4)`: the list created for a
timer name on its first observation.  This is a slice of *length* four,
i.e. four zero values, not an empty slice of capacity four. -/
def newTimerList : List ℚ := List.replicate 4 0

/-- transceiver.go:440-444 — accumulation of the `ms` observations of
one timer name over one stat-flush interval: the first observation
creates `newTimerList`, and every observation is appended in arrival
order.  (For an interval with no observation the name has no map entry;
the claims below only concern non-empty observation lists.) -/
def accumulateTimers (obs : List ℚ) : List ℚ :=
  obs.foldl (fun acc v => acc ++ [v]) newTimerList

/-- The five summary values the stats flush emits for one timer name. -/
structure TimerEmit where
  count : ℚ
  lower : ℚ
  upper : ℚ
  sum : ℚ
  mean : ℚ
deriving DecidableEq

/-- transceiver.go:378-398 — the summary computed from the accumulated
list `times` of one timer name: `.count` is the list length; for a
non-empty list, `lower`/`upper`/`sum` are accumulated in a single pass
initialised with `lower = upper = times[0]` and `sum = 0` and ranging
over `times[1:]` (so `sum` omits `times[0]`), and
`.mean = sum / len(times)`.  `none` models the empty list, for which
only the count data point is emitted. -/
def timerStats : List ℚ → Option TimerEmit
  | [] => none
  | t0 :: rest =>
      let acc := rest.foldl
        (fun (a : ℚ × ℚ × ℚ) v => (min a.1 v, max a.2.1 v, a.2.2 + v)) (t0, t0, 0)
      some ⟨(((t0 :: rest).length : Nat) : ℚ), acc.1, acc.2.1, acc.2.2,
        acc.2.2 / (((t0 :: rest).length : Nat) : ℚ)⟩

/-- **C1.** The claim that for observations `L` with `|L| > 0` the
flush emits `.count = |L|`, `.lower = min L`, `.upper = max L`,
`.sum = Σ L`, `.mean = (Σ L)/|L|` fails on the code: the list is
pre-seeded with four zeros, and the sum loop skips `times[0]`.  On the
single observation `10` the code emits count 5, lower 0, upper 10,
sum 10 and mean 2, where the claim requires count 1, lower 10 and
mean 10. -/
theorem timer_stats_skewed :
    timerStats (accumulateTimers [10]) = some ⟨5, 0, 10, 10, 2⟩ ∧
    (5 : ℚ) ≠ 1 ∧ (0 : ℚ) ≠ 10 ∧ (2 : ℚ) ≠ 10 := by
  refine ⟨?_, by norm_num, by norm_num, by norm_num⟩
  norm_num [timerStats, accumulateTimers, newTimerList, List.replicate,
    min_def, max_def]

/-- Go's `int64(v)` conversion of a float64 value: truncation toward
zero (transceiver.go:437). -/
def goInt64 (v : ℚ) : Int := if 0 ≤ v then ⌊v⌋ else ⌈v⌉

/-- transceiver.go:433-437 — counter accumulation: every arriving `c`
stat adds `int64(st.value)` to the counter's running `int64` total
(initialised to zero on first arrival). -/
def accumulateCounter (vs : List ℚ) : Int :=
  vs.foldl (fun a v => a + goInt64 v) 0

/-- transceiver.go:370-374 — the flush of the counters map: one data
point per counter name, named `prefix + "." + name` and valued
`float64(count) / config.StatFlush.Duration.Seconds()`.  The Go map is
modelled as an association list with pairwise-distinct keys. -/
def flushCounters (pre : String) (statFlushSeconds : ℚ)
    (counts : List (String × Int)) : List trDataPoint :=
  counts.map (fun p => ⟨pre ++ "." ++ p.1, (p.2 : ℚ) / statFlushSeconds⟩)

/-- **C6 (counterexample).** The claim that a counter receiving float64
values `v₁..vₙ` yields the value `(Σvᵢ)/D` fails: each value is
truncated to `int64` on accumulation.  With the single value `5/2` over
a 1-second interval, the code emits value `2` while the claim requires
`5/2`. -/
theorem counter_rate_truncates :
    flushCounters "s" 1 [("hits", accumulateCounter [5/2])]
      = [⟨"s.hits", 2⟩] ∧ (5/2 : ℚ) / 1 ≠ 2 := by
  constructor
  · have : accumulateCounter [5/2] = 2 := by
      norm_num [accumulateCounter, goInt64]
    simp only [flushCounters, this, List.map]
    norm_num
    decide
  · norm_num

/-- A rational that equals its floor is also its own ceiling, so Go's
truncation toward zero returns exactly that integer. -/
theorem goInt64_of_int (v : ℚ) (h : (⌊v⌋ : ℚ) = v) : (goInt64 v : ℚ) = v := by
  unfold goInt64
  by_cases h0 : 0 ≤ v
  · simp [h0, h]
  · have hc : (⌈v⌉ : ℚ) = v := by
      rw [← h, Int.ceil_intCast]
    simp [h0, hc]

/-- For integral observations the truncating accumulator computes the
exact sum. -/
theorem accumulateCounter_eq_sum (vs : List ℚ)
    (hint : ∀ v ∈ vs, (⌊v⌋ : ℚ) = v) :
    (accumulateCounter vs : ℚ) = vs.sum := by
  suffices hgen : ∀ (l : List ℚ), (∀ v ∈ l, (⌊v⌋ : ℚ) = v) → ∀ a : Int,
      ((l.foldl (fun b v => b + goInt64 v) a : Int) : ℚ) = (a : ℚ) + l.sum by
    simpa [accumulateCounter] using hgen vs hint 0
  intro l
  induction l with
  | nil => intro _ a; simp
  | cons v rest ih =>
      intro hl a
      have hv : (goInt64 v : ℚ) = v := goInt64_of_int v (hl v (by simp))
      have hrest : ∀ w ∈ rest, (⌊w⌋ : ℚ) = w := fun w hw => hl w (by simp [hw])
      simp only [List.foldl_cons, List.sum_cons]
      rw [ih hrest (a + goInt64 v)]
      push_cast
      rw [hv]
      ring

/-- Appending to a fixed string on the left is injective. -/
theorem str_append_cancel_left (p s t : String) (h : p ++ s = p ++ t) :
    s = t := by
  have hd : (p ++ s).data = (p ++ t).data := by rw [h]
  simp only [String.data_append] at hd
  have h2 := List.append_cancel_left hd
  cases s; cases t
  simp_all

/-- If a counter name occurs among none of the keys, the flushed data
points include none with that counter's emitted name. -/
theorem flushCounters_filter_nil (pre c : String) (D : ℚ)
    (counts : List (String × Int)) (hc : c ∉ counts.map Prod.fst) :
    (flushCounters pre D counts).filter
      (fun dp => dp.Name == pre ++ "." ++ c) = [] := by
  induction counts with
  | nil => simp [flushCounters]
  | cons p rest ih =>
      simp only [List.map, List.mem_cons, not_or] at hc
      have hne : ¬ (pre ++ "." ++ p.1 = pre ++ "." ++ c) := fun h =>
        hc.1 (str_append_cancel_left (pre ++ ".") p.1 c h).symm
      simp only [flushCounters, List.map, List.filter_cons]
      simp only [flushCounters] at ih
      simp [hne, ih hc.2]

/-- **C6 (amended).** For a counter `c` whose accumulated `int64` total
over the interval came from observations `v₁..vₙ`, the flush emits
exactly one data point named `prefix + "." + c`; its value is
`(Σ int64(vᵢ))/D`, which equals `(Σ vᵢ)/D` whenever every observation
is integral (each value is truncated to `int64` on accumulation). -/
theorem counter_flush_rate (pre c : String) (counts : List (String × Int))
    (vs : List ℚ) (D : ℚ)
    (hkeys : (counts.map Prod.fst).Nodup)
    (hmem : (c, accumulateCounter vs) ∈ counts)
    (hint : ∀ v ∈ vs, (⌊v⌋ : ℚ) = v) :
    (flushCounters pre D counts).filter
      (fun dp => dp.Name == pre ++ "." ++ c)
      = [⟨pre ++ "." ++ c, vs.sum / D⟩] := by
  induction counts with
  | nil => cases hmem
  | cons p rest ih =>
      simp only [List.map, List.nodup_cons] at hkeys
      rcases List.mem_cons.mp hmem with hhead | htail
      · have hkey : p.1 = c := by rw [← hhead]
        have hval : p.2 = accumulateCounter vs := by rw [← hhead]
        have hrest : c ∉ rest.map Prod.fst := by
          rw [← hkey]; exact hkeys.1
        simp only [flushCounters, List.map, List.filter_cons, hkey, hval]
        have htail0 := flushCounters_filter_nil pre c D rest hrest
        simp only [flushCounters] at htail0
        simp [htail0, accumulateCounter_eq_sum vs hint]
      · have hcin : c ∈ rest.map Prod.fst :=
          List.mem_map.mpr ⟨(c, accumulateCounter vs), htail, rfl⟩
        have hne : ¬ (pre ++ "." ++ p.1 = pre ++ "." ++ c) := fun h => by
          have : p.1 = c := str_append_cancel_left (pre ++ ".") p.1 c h
          exact hkeys.1 (this ▸ hcin)
        have hr := ih hkeys.2 htail
        simp only [flushCounters, List.map, List.filter_cons]
        simp only [flushCounters] at hr
        simp [hne, hr]

/-- Witness for `counter_flush_rate`: counter `hits` receives 2, 3, 5
during a 1-second interval; the flush emits the single point
`s.hits = 10`. -/
theorem counter_flush_rate_witness :
    (([("hits", accumulateCounter [2, 3, 5])].map Prod.fst).Nodup ∧
      ("hits", accumulateCounter [2, 3, 5])
        ∈ [("hits", accumulateCounter [2, 3, 5])]) ∧
    (flushCounters "s" 1 [("hits", accumulateCounter [2, 3, 5])]).filter
      (fun dp => dp.Name == "s" ++ "." ++ "hits")
      = [⟨"s" ++ "." ++ "hits", ([2, 3, 5] : List ℚ).sum / 1⟩] :=
  ⟨⟨by simp, by simp⟩,
    counter_flush_rate "s" "hits" _ [2, 3, 5] 1 (by simp) (by simp)
      (by intro v hv
          simp only [List.mem_cons, List.not_mem_nil, or_false] at hv
          rcases hv with h | h | h <;> subst h <;> norm_num)⟩

/- ------------------------------------------------------------------ -/
/-  Worker copy requests (transceiver.go:195-199, 242-250)             -/
/- ------------------------------------------------------------------ -/

/-- transceiver.go:242-250 — the worker's copy-request branch: when the
id resolves in the registry the worker sends `ds.mostlyCopy()` on
`r.resp` and then closes it (`some snapshot`); when it does not, the
worker only logs and continues, neither sending on nor closing
`r.resp` (`none`). -/
def workerCopyBranchReply (dss : List trDataSource) (id : Int) :
    Option trDataSource :=
  match getById dss id with
  | some ds => some (mostlyCopy ds)
  | none => none

/-- transceiver.go:195-199 — `requestDsCopy` sends its request to shard
`id mod Workers` and blocks on `<-req.resp`.  `some (some s)` models
the call returning snapshot `s`; `some none` would model `nil` read
from a closed reply channel; `none` models the call never returning
because the reply channel is neither written to nor closed. -/
def requestDsCopy (dss : List trDataSource) (id : Int) :
    Option (Option trDataSource) :=
  match workerCopyBranchReply dss id with
  | some snap => some (some snap)
  | none => none

/-- **C2.** `requestDsCopy` returns the snapshot when the id is in the
registry, but for an unknown id the worker's copy branch neither sends
a reply nor closes the reply channel, so the call never returns —
instead of returning null as claimed. -/
theorem requestDsCopy_unknown_id_blocks :
    requestDsCopy [dsA] 7 = some (some dsA) ∧ requestDsCopy [] 7 = none :=
  ⟨rfl, rfl⟩

/- ------------------------------------------------------------------ -/
/-  Worker flush passes (transceiver.go:225-275, receiver/worker.go:34-89) -/
/- ------------------------------------------------------------------ -/

/-- transceiver.go:253-264 — one pass of the transceiver worker over
`recent`, reached after a periodic tick (`flushEverything = false`) or
a closed inbox (`flushEverything = true`).  For each id: a failed
registry lookup is only logged (the id stays in `recent`); otherwise
the ds is flushed and removed from `recent` when `flushEverything ||
ds.shouldBeFlushed()`.  `sbf` models the delegated
`ds.shouldBeFlushed()`.  Returns `recent` after the pass together with
the flushed ids. -/
def transceiverFlushPass (sbf : trDataSource → Bool) (dss : List trDataSource)
    (flushEverything : Bool) : List Int → List Int × List Int
  | [] => ([], [])
  | dsId :: rest =>
      let r := transceiverFlushPass sbf dss flushEverything rest
      match getById dss dsId with
      | none => (dsId :: r.1, r.2)
      | some ds =>
          if flushEverything || sbf ds
          then (r.1, dsId :: r.2)
          else (dsId :: r.1, r.2)

/-- transceiver.go:271-273 — after a pass the worker leaves its loop
exactly when `flushEverything` is set. -/
def transceiverWorkerReturns (flushEverything : Bool) : Bool := flushEverything

/-- receiver/worker.go:68-71 — the receiver-package worker's reaction
to a closed inbox is `if !ok { return }`: it returns at once, flushing
nothing and leaving `recent` as it is.  Returns (`recent`, flushed
ids). -/
def receiverWorkerOnClose (recent : List Int) : List Int × List Int :=
  (recent, [])

/-- **C3 (counterexample).** The claim that a worker whose inbox closes
performs a final pass flushing every id in `recent` fails for the
receiver-package worker: with `recent = {3}` it returns immediately and
flushes nothing. -/
theorem receiver_close_flushes_nothing :
    (3 : Int) ∈ [(3 : Int)] ∧ (3 : Int) ∉ (receiverWorkerOnClose [3]).2 := by
  constructor
  · simp
  · simp [receiverWorkerOnClose]

/-- **C3 (amended).** When the transceiver worker's inbox closes, its
final pass (`flushEverything = true`) flushes every id of `recent`
whose data source is still in the registry, regardless of
`shouldBeFlushed`, and the worker then leaves its loop; the
receiver-package worker instead returns at once without a final
pass. -/
theorem transceiver_final_flush (sbf : trDataSource → Bool)
    (dss : List trDataSource) (recent : List Int) (dsId : Int)
    (hmem : dsId ∈ recent) (hfound : (getById dss dsId).isSome) :
    dsId ∈ (transceiverFlushPass sbf dss true recent).2 ∧
    transceiverWorkerReturns true = true := by
  refine ⟨?_, rfl⟩
  induction recent with
  | nil => cases hmem
  | cons x rest ih =>
      rcases List.mem_cons.mp hmem with h | h
      · subst h
        obtain ⟨ds, hds⟩ := Option.isSome_iff_exists.mp hfound
        simp [transceiverFlushPass, hds]
      · have hr := ih h
        simp only [transceiverFlushPass]
        cases hx : getById dss x
        · simpa [hx] using hr
        · simpa [hx] using Or.inr hr

/-- Witness for `transceiver_final_flush`: with `recent = {7}` holding
the id of the registered `dsA` and a `shouldBeFlushed` that always says
no, the final pass still flushes id 7 and the worker returns. -/
theorem transceiver_final_flush_witness :
    ((7 : Int) ∈ [(7 : Int)] ∧ (getById [dsA] 7).isSome) ∧
    (7 : Int) ∈ (transceiverFlushPass (fun _ => false) [dsA] true [7]).2 ∧
    transceiverWorkerReturns true = true :=
  ⟨⟨by simp, by rfl⟩,
    transceiver_final_flush (fun _ => false) [dsA] [7] 7 (by simp) (by rfl)⟩

/-- receiver/worker.go:34-50 — `workerPeriodicFlush`: one periodic pass
over `recent`.  A failed registry lookup is logged and the id is
deleted from `recent`; otherwise the ds is flushed and removed from
`recent` when `rds.shouldBeFlushed(maxPoints, minCacheDur,
minCacheDur)` holds — the source passes `minCacheDur` again as the
third argument.  `sbf rds p a b` models the delegated
`rds.shouldBeFlushed(p, a, b)`.  Returns `recent` after the pass
together with the flushed ids. -/
def workerPeriodicFlush (sbf : trDataSource → Nat → Nat → Nat → Bool)
    (dss : List trDataSource) (minCacheDur maxCacheDur maxPoints : Nat) :
    List Int → List Int × List Int
  | [] => ([], [])
  | dsId :: rest =>
      let r := workerPeriodicFlush sbf dss minCacheDur maxCacheDur maxPoints rest
      match getById dss dsId with
      | none => (r.1, r.2)
      | some rds =>
          if sbf rds maxPoints minCacheDur minCacheDur
          then (r.1, dsId :: r.2)
          else (dsId :: r.1, r.2)

/-- **C4 (counterexample).** The claim that after a periodic pass no
dangling id remains in `recent` fails for the transceiver worker: its
pass only logs a failed lookup and keeps the id, so with an empty
registry and `recent = {5}` the id 5 survives the pass. -/
theorem transceiver_dangling_id_stays :
    (transceiverFlushPass (fun _ => true) [] false [5]).1 = [5] := rfl

/-- **C4 (amended).** In the receiver-package periodic pass
(`workerPeriodicFlush`), every id whose data source is gone from the
registry is removed from `recent`: any id remaining after the pass
still resolves.  The transceiver worker's pass instead logs the
anomaly and leaves the id in `recent`. -/
theorem receiver_periodic_no_dangling (sbf : trDataSource → Nat → Nat → Nat → Bool)
    (dss : List trDataSource) (minCacheDur maxCacheDur maxPoints : Nat)
    (recent : List Int) (dsId : Int)
    (hmem : dsId ∈ (workerPeriodicFlush sbf dss minCacheDur maxCacheDur maxPoints recent).1) :
    (getById dss dsId).isSome := by
  induction recent with
  | nil => simp [workerPeriodicFlush] at hmem
  | cons x rest ih =>
      simp only [workerPeriodicFlush] at hmem
      cases hx : getById dss x with
      | none =>
          rw [hx] at hmem
          exact ih hmem
      | some rds =>
          rw [hx] at hmem
          by_cases hs : sbf rds maxPoints minCacheDur minCacheDur
          · simp only [hs, if_true] at hmem
            exact ih hmem
          · simp only [hs, if_false, Bool.false_eq_true, List.mem_cons] at hmem
            rcases hmem with h | h
            · subst h
              simp [hx]
            · exact ih h

/-- Witness for `receiver_periodic_no_dangling`: with registry `[dsA]`,
`recent = {7}` and a `shouldBeFlushed` that always says no, the id 7
remains in `recent` after the pass and still resolves in the
registry. -/
theorem receiver_periodic_no_dangling_witness :
    (7 : Int) ∈ (workerPeriodicFlush (fun _ _ _ _ => false) [dsA] 1 2 0 [7]).1 ∧
    (getById [dsA] 7).isSome :=
  ⟨by simp [workerPeriodicFlush, getById, dsA],
    receiver_periodic_no_dangling (fun _ _ _ _ => false) [dsA] 1 2 0 [7] 7
      (by simp [workerPeriodicFlush, getById, dsA])⟩

/-- receiver/worker.go:77 — the incoming-point path's flush decision:
`rds.shouldBeFlushed(maxPoints, minCacheDur, maxCacheDur)`. -/
def workerIncomingFlushDecision (sbf : trDataSource → Nat → Nat → Nat → Bool)
    (rds : trDataSource) (maxPoints minCacheDur maxCacheDur : Nat) : Bool :=
  sbf rds maxPoints minCacheDur maxCacheDur

/-- **C5.** The two paths do not evaluate the flush decision against
the same arguments: the periodic path (receiver/worker.go:42) passes
`minCacheDur` as the third argument where the incoming path
(receiver/worker.go:77) passes `maxCacheDur`.  With a decision that
flushes exactly when its third argument is `maxCacheDur = 2`, the
incoming path flushes `dsA` while the periodic pass leaves id 7 in
`recent` unflushed. -/
theorem sbf_args_mismatch :
    workerIncomingFlushDecision (fun _ _ _ a3 => a3 == 2) dsA 10 1 2 = true ∧
    workerPeriodicFlush (fun _ _ _ a3 => a3 == 2) [dsA] 1 2 10 [7] = ([7], []) :=
  ⟨rfl, rfl⟩

/- ------------------------------------------------------------------ -/
/-  flushDs and the flusher channels (transceiver.go:277-281, 320-330) -/
/- ------------------------------------------------------------------ -/

/-- transceiver.go:327 — `make(chan *trDataSource)` in `startFlushers`:
the flusher channels are unbuffered. -/
def flusherChCapacity : Nat := 0

/-- Go channel semantics: a send completes without a waiting receiver
exactly when the buffer has room; on an unbuffered channel (capacity
zero) a plain send always blocks until a receiver is ready. -/
def sendCompletesWithoutReceiver (cap occupancy : Nat) : Bool :=
  occupancy < cap

/-- The observable outcome of one `flushDs` call: the value sent on the
flusher channel, the shard index of that channel, and the live DS after
the call. -/
structure FlushDsResult where
  sent : trDataSource
  shard : Int
  live : trDataSource
deriving DecidableEq

/-- transceiver.go:277-281 — `flushDs(ds)`: sends `ds.mostlyCopy()` on
`flusherChs[ds.Id % config.Workers]` (a plain, hence potentially
blocking, send), then sets `ds.LastFlushRT` to the current instant on
the live DS, then calls `ds.clearRRAs()`.  The snapshot is cloned
before either mutation. -/
def flushDs (workers : Int) (now : ℚ) (ds : trDataSource) : FlushDsResult :=
  let snap := mostlyCopy ds
  let shard := ds.Id % workers
  let ds1 := { ds with LastFlushRT := now }
  let ds2 := clearRRAs ds1
  ⟨snap, shard, ds2⟩

/-- **C7 (counterexample).** Two parts of the claim fail: the snapshot
sent keeps the pre-flush `LastFlushRT` (here 0, not the current instant
100 — only the live DS is restamped, after the send), and the flusher
channel is unbuffered, so the enqueue is a blocking send, not a
non-blocking one. -/
theorem flushDs_snapshot_not_restamped :
    (flushDs 4 100 dsA).sent.LastFlushRT = 0 ∧ (0 : ℚ) ≠ 100 ∧
    sendCompletesWithoutReceiver flusherChCapacity 0 = false :=
  ⟨rfl, by norm_num, rfl⟩

/-- **C7 (amended).** `flushDs(ds)` produces a `mostlyCopy` snapshot
that retains the pre-flush `LastFlushRT` and the archive buffers
(cleared on the live DS only after the snapshot is cloned), sets the
live DS's `LastFlushRT` to the current instant and clears its buffers,
and sends the snapshot — a blocking send, the channel being
unbuffered — to `flusherCh[ds.Id mod N]`. -/
theorem flushDs_spec (workers : Int) (now : ℚ) (ds : trDataSource) :
    (flushDs workers now ds).sent = mostlyCopy ds ∧
    (flushDs workers now ds).sent.rras = ds.rras ∧
    (flushDs workers now ds).sent.LastFlushRT = ds.LastFlushRT ∧
    (flushDs workers now ds).live.LastFlushRT = now ∧
    (flushDs workers now ds).live.rras = [] ∧
    (flushDs workers now ds).shard = ds.Id % workers ∧
    flusherChCapacity = 0 :=
  ⟨rfl, rfl, rfl, rfl, rfl, rfl, rfl⟩
